import Mathlib

/-
Verification of the simfire/rothermel fire-spread engine.

The definitions below are a shallow embedding of the Python source:
  * src/src/world/rothermel.py           (compute_rate_of_spread)
  * src/src/world/elevation_functions.py (PerlinNoise2D.precompute)
  * src/src/enums.py                     (BurnStatus)
  * src/src/rl_env/simulation.py         (RothermelSimulation.get_actions, .run)
Python floats are modelled as real numbers; float `**` with a float
exponent is Real.rpow, `**` with an int literal exponent is Monoid.npow;
math.exp / math.cos / math.atan2 / math.radians are the corresponding
real functions. Parts of the repository that are not under src/
(the GameStatus enum and src/src/world/wind.py) are modelled from the
spec and marked as such in their doc comments.
-/

noncomputable section

namespace Rothermel

/-- math.radians: degrees to radians. -/
def radians (deg : ℝ) : ℝ := deg * Real.pi / 180

/-- math.atan2 with the usual quadrant conventions of the C library. -/
def atan2 (y x : ℝ) : ℝ :=
  if 0 < x then Real.arctan (y / x)
  else if x < 0 ∧ 0 ≤ y then Real.arctan (y / x) + Real.pi
  else if x < 0 ∧ y < 0 then Real.arctan (y / x) - Real.pi
  else if x = 0 ∧ 0 < y then Real.pi / 2
  else if x = 0 ∧ y < 0 then -(Real.pi / 2)
  else 0

/-- Mineral damping coefficient: `eta_S = min(0.174 * S_e**-0.19, 1)`. -/
def eta_S (S_e : ℝ) : ℝ := min (0.174 * S_e ^ (-(0.19 : ℝ))) 1

/-- Moisture ratio: `r_M = min(M_f / M_x, 1)`. -/
def r_M (M_f M_x : ℝ) : ℝ := min (M_f / M_x) 1

/-- Moisture damping coefficient:
`eta_M = 1 - 2.59 * r_M + 5.11 * r_M**2 - 3.52 * r_M**3`. -/
def eta_M (M_f M_x : ℝ) : ℝ :=
  1 - 2.59 * r_M M_f M_x + 5.11 * (r_M M_f M_x) ^ 2 - 3.52 * (r_M M_f M_x) ^ 3

/-- Net fuel load: `w_n = w_0 * (1 - S_T)`. -/
def w_n (w_0 S_T : ℝ) : ℝ := w_0 * (1 - S_T)

/-- Oven-dry bulk density: `p_b = w_0 / delta`. -/
def p_b (w_0 delta : ℝ) : ℝ := w_0 / delta

/-- Packing ratio: `B = p_b / p_p`. -/
def B (w_0 delta p_p : ℝ) : ℝ := p_b w_0 delta / p_p

/-- Optimum packing ratio: `B_op = 3.348 * sigma**-0.8189`. -/
def B_op (sigma : ℝ) : ℝ := 3.348 * sigma ^ (-(0.8189 : ℝ))

/-- Maximum reaction velocity:
`gamma_prime_max = sigma**1.5 / (495 + 0.0594 * sigma**1.5)`. -/
def gamma_prime_max (sigma : ℝ) : ℝ :=
  sigma ^ (1.5 : ℝ) / (495 + 0.0594 * sigma ^ (1.5 : ℝ))

/-- Exponent `A = 133 * sigma**-0.7913`. -/
def A (sigma : ℝ) : ℝ := 133 * sigma ^ (-(0.7913 : ℝ))

/-- Optimum reaction velocity:
`gamma_prime = gamma_prime_max * (B/B_op)**A * exp(A * (1 - B/B_op))`. -/
def gamma_prime (sigma w_0 delta p_p : ℝ) : ℝ :=
  gamma_prime_max sigma * (B w_0 delta p_p / B_op sigma) ^ (A sigma) *
    Real.exp (A sigma * (1 - B w_0 delta p_p / B_op sigma))

/-- Reaction intensity: `I_R = gamma_prime * w_n * h * eta_M * eta_S`. -/
def I_R (sigma w_0 delta p_p S_T h M_f M_x S_e : ℝ) : ℝ :=
  gamma_prime sigma w_0 delta p_p * w_n w_0 S_T * h * eta_M M_f M_x * eta_S S_e

/-- Propagating flux ratio:
`xi = exp((0.792 + 0.681*sigma**0.5) * (B + 0.1)) / (192 + 0.25*sigma)`. -/
def xi (sigma w_0 delta p_p : ℝ) : ℝ :=
  Real.exp ((0.792 + 0.681 * sigma ^ (0.5 : ℝ)) * (B w_0 delta p_p + 0.1)) /
    (192 + 0.25 * sigma)

/-- Wind-factor coefficient `c = 7.47 * exp(-0.133 * sigma**0.55)`. -/
def c (sigma : ℝ) : ℝ := 7.47 * Real.exp (-0.133 * sigma ^ (0.55 : ℝ))

/-- Wind-factor exponent `b = 0.02526 * sigma**0.54`. -/
def b (sigma : ℝ) : ℝ := 0.02526 * sigma ^ (0.54 : ℝ)

/-- Wind-factor exponent `e = 0.715 * exp(-3.59e-4 * sigma)`. -/
def e (sigma : ℝ) : ℝ := 0.715 * Real.exp (-3.59e-4 * sigma)

/-- Angle of travel: `atan2(loc_y - new_loc_y, new_loc_x - loc_x)`
(y-component subtraction flipped because image y grows downward). -/
def angle_of_travel (loc_x loc_y new_loc_x new_loc_y : ℝ) : ℝ :=
  atan2 (loc_y - new_loc_y) (new_loc_x - loc_x)

/-- Wind angle in radians: `radians(90 - U_dir)` (North-oriented bearing). -/
def wind_angle_radians (U_dir : ℝ) : ℝ := radians (90 - U_dir)

/-- Wind component along the direction of travel:
`U * cos(wind_angle_radians - angle_of_travel)`. -/
def wind_along_angle_of_travel (U U_dir loc_x loc_y new_loc_x new_loc_y : ℝ) : ℝ :=
  U * Real.cos (wind_angle_radians U_dir - angle_of_travel loc_x loc_y new_loc_x new_loc_y)

/-- Wind factor `phi_w = c * U**b * (B/B_op)**-e`, where the projected wind
component has first been clamped by `U = max(U, 0)`. -/
def phi_w (sigma w_0 delta p_p U U_dir loc_x loc_y new_loc_x new_loc_y : ℝ) : ℝ :=
  c sigma *
    (max (wind_along_angle_of_travel U U_dir loc_x loc_y new_loc_x new_loc_y) 0) ^ (b sigma) *
    (B w_0 delta p_p / B_op sigma) ^ (-(e sigma))

/-- Slope factor `phi_s = 5.275 * B**-0.3 * (new_loc_z - loc_z)**2`. -/
def phi_s (w_0 delta p_p loc_z new_loc_z : ℝ) : ℝ :=
  5.275 * B w_0 delta p_p ^ (-(0.3 : ℝ)) * (new_loc_z - loc_z) ^ 2

/-- Effective heating number `epsilon = exp(-138 / sigma)`. -/
def epsilon (sigma : ℝ) : ℝ := Real.exp (-138 / sigma)

/-- Heat of preignition `Q_ig = 250 + 1116 * M_f`. -/
def Q_ig (M_f : ℝ) : ℝ := 250 + 1116 * M_f

/-- The Rothermel rate-of-spread kernel of src/src/world/rothermel.py:
`R = (I_R * xi * (1 + phi_w + phi_s)) / (p_b * epsilon * Q_ig)` followed by
the final clamp `R = max(R, 0)`. -/
def compute_rate_of_spread (loc_x loc_y loc_z new_loc_x new_loc_y new_loc_z
    w_0 delta M_x sigma h S_T S_e p_p M_f U U_dir : ℝ) : ℝ :=
  max ((I_R sigma w_0 delta p_p S_T h M_f M_x S_e * xi sigma w_0 delta p_p *
        (1 + phi_w sigma w_0 delta p_p U U_dir loc_x loc_y new_loc_x new_loc_y +
          phi_s w_0 delta p_p loc_z new_loc_z)) /
      (p_b w_0 delta * epsilon sigma * Q_ig M_f)) 0

/-- Modelled from the spec: the error kind `DegenerateFuel` that §7 of the
spec says the kernel reports; the source under src/ defines no such error. -/
inductive KernelError where
  | DegenerateFuel
deriving DecidableEq

/-- The call outcome of the source kernel: the body of compute_rate_of_spread
in src/src/world/rothermel.py contains no parameter validation and no raise
statement, so every call returns normally with the computed rate. -/
def compute_rate_of_spread_call (loc_x loc_y loc_z new_loc_x new_loc_y new_loc_z
    w_0 delta M_x sigma h S_T S_e p_p M_f U U_dir : ℝ) : Except KernelError ℝ :=
  Except.ok (compute_rate_of_spread loc_x loc_y loc_z new_loc_x new_loc_y new_loc_z
    w_0 delta M_x sigma h S_T S_e p_p M_f U U_dir)

/-- Modelled from the spec: a kernel that fails the call with a DegenerateFuel
error on zero/negative fuel load, bed depth, or surface-to-volume ratio (§7),
and otherwise computes the rate. -/
def compute_rate_of_spread_spec (loc_x loc_y loc_z new_loc_x new_loc_y new_loc_z
    w_0 delta M_x sigma h S_T S_e p_p M_f U U_dir : ℝ) : Except KernelError ℝ :=
  if w_0 ≤ 0 ∨ delta ≤ 0 ∨ sigma ≤ 0 then Except.error KernelError.DegenerateFuel
  else Except.ok (compute_rate_of_spread loc_x loc_y loc_z new_loc_x new_loc_y new_loc_z
    w_0 delta M_x sigma h S_T S_e p_p M_f U U_dir)

end Rothermel

namespace Perlin

/-- The fade polynomial of PerlinNoise2D.precompute:
`f(t) = 6*t**5 - 15*t**4 + 10*t**3`. -/
def fade (t : ℝ) : ℝ := 6 * t ^ 5 - 15 * t ^ 4 + 10 * t ^ 3

/-- The gradient angles `angles = 2 * np.pi * np.random.rand(res0+1, res1+1)`;
the draw from the numpy global generator is passed in as the explicit stream
`rand`. -/
def angle (rand : ℕ → ℕ → ℝ) (i j : ℕ) : ℝ := 2 * Real.pi * rand i j

/-- The gradient vectors `gradients = np.dstack((np.cos(angles), np.sin(angles)))`. -/
def gradient (rand : ℕ → ℕ → ℝ) (i j : ℕ) : ℝ × ℝ :=
  (Real.cos (angle rand i j), Real.sin (angle rand i j))

/-- The terrain map of PerlinNoise2D.precompute before the final shift, at
pixel (x, y).  `grid` holds the fractional lattice coordinates
(`np.mgrid[0:res0:delta0, 0:res1:delta1] ... % 1` with
`delta = (res0/shape0, res1/shape1)`); `g00/g10/g01/g11` select the four
surrounding lattice gradients (after `repeat`, the lattice cell at (i, j)
covers the `d0 × d1` pixel block with `d = (shape0//res0, shape1//res1)`);
`n00/n10/n01/n11` are the ramp dot products, and `t = f(grid)` drives the
bilinear interpolation scaled by `amplitude * np.sqrt(2)`. -/
def raw (amplitude : ℝ) (shape0 shape1 res0 res1 : ℕ) (rand : ℕ → ℕ → ℝ)
    (x y : ℕ) : ℝ :=
  let g0 : ℝ := Int.fract ((x : ℝ) * ((res0 : ℝ) / (shape0 : ℝ)))
  let g1 : ℝ := Int.fract ((y : ℝ) * ((res1 : ℝ) / (shape1 : ℝ)))
  let i := x / (shape0 / res0)
  let j := y / (shape1 / res1)
  let n00 := g0 * (gradient rand i j).1 + g1 * (gradient rand i j).2
  let n10 := (g0 - 1) * (gradient rand (i + 1) j).1 + g1 * (gradient rand (i + 1) j).2
  let n01 := g0 * (gradient rand i (j + 1)).1 + (g1 - 1) * (gradient rand i (j + 1)).2
  let n11 := (g0 - 1) * (gradient rand (i + 1) (j + 1)).1 +
    (g1 - 1) * (gradient rand (i + 1) (j + 1)).2
  let t0 := fade g0
  let t1 := fade g1
  let n0 := n00 * (1 - t0) + t0 * n10
  let n1 := n01 * (1 - t0) + t0 * n11
  amplitude * Real.sqrt 2 * ((1 - t1) * n0 + t1 * n1)

/-- `np.min` over a shape0 × shape1 field. -/
def mapMin (shape0 shape1 : ℕ) (f : ℕ → ℕ → ℝ) : ℝ :=
  (List.range shape0).foldl
    (fun acc x => (List.range shape1).foldl (fun acc2 y => min acc2 (f x y)) acc)
    (f 0 0)

/-- `np.max` over a shape0 × shape1 field. -/
def mapMax (shape0 shape1 : ℕ) (f : ℕ → ℕ → ℝ) : ℝ :=
  (List.range shape0).foldl
    (fun acc x => (List.range shape1).foldl (fun acc2 y => max acc2 (f x y)) acc)
    (f 0 0)

/-- PerlinNoise2D.precompute: the raw terrain map shifted by its own minimum
(`self.terrain_map = self.terrain_map + np.min(self.terrain_map)`), as a
function of the numpy random draw `rand` consumed by the gradient step. -/
def precompute (amplitude : ℝ) (shape0 shape1 res0 res1 : ℕ)
    (rand : ℕ → ℕ → ℝ) (x y : ℕ) : ℝ :=
  raw amplitude shape0 shape1 res0 res1 rand x y +
    mapMin shape0 shape1 (raw amplitude shape0 shape1 res0 res1 rand)

/-- Modelled from the spec: the numpy global random stream as a deterministic
function of the seed.  src/src/world/wind.py, where
WindController.init_wind_speed_generator seeds the generator before drawing, is
not under src/; only its caller RothermelSimulation._create_wind is. -/
def seededRand (seed : ℕ) (i j : ℕ) : ℝ :=
  ((((seed + 1) * (2 * i + 3) + (seed + 7) * (3 * j + 5) * (i + j + 11)) % 1000003 : ℕ) :
    ℝ) / 1000003

/-- Modelled from the spec: the §4.1 noise field generator behind
WindController.init_wind_speed_generator (src/src/world/wind.py is not under
src/).  From `(seed, scale, octaves, persistence, lacunarity, value_min,
value_max, shape)` it sums `octaves` Perlin octaves whose amplitudes decay by
`persistence` and whose lattice resolutions grow by `lacunarity`, then linearly
remaps the summed field into `[value_min, value_max]`. -/
def noise_field (seed scale octaves lacunarity : ℕ)
    (persistence value_min value_max : ℝ) (shape0 shape1 : ℕ) (x y : ℕ) : ℝ :=
  let octaveSum : ℕ → ℕ → ℝ := fun u v =>
    ∑ k in Finset.range octaves, persistence ^ k *
      precompute 1 shape0 shape1 (scale * lacunarity ^ k) (scale * lacunarity ^ k)
        (seededRand (seed + k)) u v
  let lo := mapMin shape0 shape1 octaveSum
  let hi := mapMax shape0 shape1 octaveSum
  value_min + (octaveSum x y - lo) * (value_max - value_min) / (hi - lo)

end Perlin

end

/-- BurnStatus of src/src/enums.py: an IntEnum whose members are all assigned
with auto(), which numbers them consecutively starting at 1. -/
inductive BurnStatus where
  | UNBURNED
  | BURNING
  | BURNED
  | FIRELINE
  | SCRATCHLINE
  | WETLINE
deriving DecidableEq

/-- The integer value auto() gives each BurnStatus member (IntEnum numbering
starts at 1). -/
def BurnStatus.val : BurnStatus → ℕ
  | .UNBURNED => 1
  | .BURNING => 2
  | .BURNED => 3
  | .FIRELINE => 4
  | .SCRATCHLINE => 5
  | .WETLINE => 6

/-- RothermelSimulation.get_actions of src/src/rl_env/simulation.py: the dict
`{'none': BurnStatus.UNBURNED, 'fireline': BurnStatus.FIRELINE,
'scratchline': BurnStatus.SCRATCHLINE, 'wetline': BurnStatus.WETLINE}`. -/
def get_actions : List (String × ℕ) :=
  [("none", BurnStatus.UNBURNED.val),
   ("fireline", BurnStatus.FIRELINE.val),
   ("scratchline", BurnStatus.SCRATCHLINE.val),
   ("wetline", BurnStatus.WETLINE.val)]

/-- Modelled from the spec: GameStatus, imported by src/src/rl_env/simulation.py
from src/src/enums.py but not defined in the enums version under src/.  §4.5
lists RUNNING as the only non-terminal status and BURNED_OUT, TIMED_OUT and
QUIT as the terminal ones. -/
inductive GameStatus where
  | RUNNING
  | BURNED_OUT
  | TIMED_OUT
  | QUIT
deriving DecidableEq

/-- The while-loop of RothermelSimulation.run, driven by the successive results
of `self.fire_manager.update(self.fire_map)` (the trace argument lists those
(fire_map, fire_status) pairs in order): while the status is RUNNING the loop
continues; a QUIT status hits `return self.fire_map`; any other status makes
the `while self.fire_status == GameStatus.RUNNING` condition fail, so control
falls off the end of the function and Python returns None. -/
def run_loop {α : Type} : List (α × GameStatus) → Option α
  | [] => none
  | (m, s) :: rest =>
    if s = GameStatus.QUIT then some m
    else if s = GameStatus.RUNNING then run_loop rest
    else none

/-- C1: for every input to compute_rate_of_spread (any coordinates, elevations,
fuel parameters, moisture, wind speed and direction) the returned rate is ≥ 0,
because of the final clamp `R = max(R, 0)`. -/
theorem rate_of_spread_nonneg (loc_x loc_y loc_z new_loc_x new_loc_y new_loc_z
    w_0 delta M_x sigma h S_T S_e p_p M_f U U_dir : ℝ) :
    0 ≤ Rothermel.compute_rate_of_spread loc_x loc_y loc_z new_loc_x new_loc_y new_loc_z
      w_0 delta M_x sigma h S_T S_e p_p M_f U U_dir :=
  le_max_right _ _

/-- C6: the value returned by compute_rate_of_spread is the reaction intensity
times the propagating flux ratio times (1 + wind factor + slope factor), divided
by (bulk density times effective heating number times heat of preignition),
floored at 0, where the effective heating number is exp(-138/σ) and the heat of
preignition is 250 + 1116 times the moisture fraction. -/
theorem rate_of_spread_formula (loc_x loc_y loc_z new_loc_x new_loc_y new_loc_z
    w_0 delta M_x sigma h S_T S_e p_p M_f U U_dir : ℝ) :
    Rothermel.compute_rate_of_spread loc_x loc_y loc_z new_loc_x new_loc_y new_loc_z
        w_0 delta M_x sigma h S_T S_e p_p M_f U U_dir =
      max ((Rothermel.I_R sigma w_0 delta p_p S_T h M_f M_x S_e *
            Rothermel.xi sigma w_0 delta p_p *
            (1 + Rothermel.phi_w sigma w_0 delta p_p U U_dir loc_x loc_y new_loc_x new_loc_y +
              Rothermel.phi_s w_0 delta p_p loc_z new_loc_z)) /
          (Rothermel.p_b w_0 delta * Real.exp (-138 / sigma) * (250 + 1116 * M_f))) 0 ∧
    Rothermel.epsilon sigma = Real.exp (-138 / sigma) ∧
    Rothermel.Q_ig M_f = 250 + 1116 * M_f :=
  ⟨rfl, rfl, rfl⟩

/-- C5: the slope factor is `5.275 * B^(-0.3) * (new_loc_z - loc_z)^2`
(B the packing ratio), and since the elevation difference is squared,
swapping the origin and target elevations leaves the returned rate
unchanged: uphill and downhill spread rates are equal. -/
theorem slope_factor_squared_symmetric (loc_x loc_y loc_z new_loc_x new_loc_y new_loc_z
    w_0 delta M_x sigma h S_T S_e p_p M_f U U_dir : ℝ) :
    Rothermel.phi_s w_0 delta p_p loc_z new_loc_z =
      5.275 * Rothermel.B w_0 delta p_p ^ (-(0.3 : ℝ)) * (new_loc_z - loc_z) ^ 2 ∧
    Rothermel.compute_rate_of_spread loc_x loc_y loc_z new_loc_x new_loc_y new_loc_z
        w_0 delta M_x sigma h S_T S_e p_p M_f U U_dir =
      Rothermel.compute_rate_of_spread loc_x loc_y new_loc_z new_loc_x new_loc_y loc_z
        w_0 delta M_x sigma h S_T S_e p_p M_f U U_dir := by
  refine ⟨rfl, ?_⟩
  unfold Rothermel.compute_rate_of_spread Rothermel.phi_s
  rw [show (loc_z - new_loc_z) ^ 2 = (new_loc_z - loc_z) ^ 2 from by ring]

/-- C3: with wind speed 0 and equal origin/target elevations, the rate does not
depend on the direction of travel: any two distinct origin/target placements
(each with flat elevation) yield equal rates, all fuel and environment
parameters being fixed. -/
theorem rate_isotropic_zero_wind (w_0 delta M_x sigma h S_T S_e p_p M_f U_dir
    ax ay az bx b_y cx cy cz dx dy : ℝ)
    (h1 : (ax, ay) ≠ (bx, b_y)) (h2 : (cx, cy) ≠ (dx, dy)) :
    Rothermel.compute_rate_of_spread ax ay az bx b_y az
        w_0 delta M_x sigma h S_T S_e p_p M_f 0 U_dir =
      Rothermel.compute_rate_of_spread cx cy cz dx dy cz
        w_0 delta M_x sigma h S_T S_e p_p M_f 0 U_dir := by
  unfold Rothermel.compute_rate_of_spread Rothermel.phi_w Rothermel.phi_s
    Rothermel.wind_along_angle_of_travel
  simp only [zero_mul, max_self, sub_self]

/-- C3 witness: the isotropy theorem applied to the concrete distinct placements
(0,0)→(1,0) and (5,2)→(5,3). -/
theorem rate_isotropic_zero_wind_witness :
    ((0 : ℝ), (0 : ℝ)) ≠ ((1 : ℝ), (0 : ℝ)) ∧
    ((5 : ℝ), (2 : ℝ)) ≠ ((5 : ℝ), (3 : ℝ)) ∧
    Rothermel.compute_rate_of_spread 0 0 7 1 0 7 1 1 0.2 100 8000 0.0555 0.01 32 0.1 0 45 =
      Rothermel.compute_rate_of_spread 5 2 9 5 3 9 1 1 0.2 100 8000 0.0555 0.01 32 0.1 0 45 := by
  have h1 : ((0 : ℝ), (0 : ℝ)) ≠ ((1 : ℝ), (0 : ℝ)) := by norm_num [Prod.ext_iff]
  have h2 : ((5 : ℝ), (2 : ℝ)) ≠ ((5 : ℝ), (3 : ℝ)) := by norm_num [Prod.ext_iff]
  exact ⟨h1, h2, rate_isotropic_zero_wind 1 1 0.2 100 8000 0.0555 0.01 32 0.1 45
    0 0 7 1 0 5 2 9 5 3 h1 h2⟩

/-- C4: the projected wind component is clamped to at least 0 before the
wind-factor formula; when the projection is negative (a headwind) the rate
equals the rate computed with wind speed 0. -/
theorem headwind_equals_zero_wind (loc_x loc_y loc_z new_loc_x new_loc_y new_loc_z
    w_0 delta M_x sigma h S_T S_e p_p M_f U U_dir : ℝ)
    (hw : Rothermel.wind_along_angle_of_travel U U_dir loc_x loc_y new_loc_x new_loc_y < 0) :
    Rothermel.compute_rate_of_spread loc_x loc_y loc_z new_loc_x new_loc_y new_loc_z
        w_0 delta M_x sigma h S_T S_e p_p M_f U U_dir =
      Rothermel.compute_rate_of_spread loc_x loc_y loc_z new_loc_x new_loc_y new_loc_z
        w_0 delta M_x sigma h S_T S_e p_p M_f 0 U_dir := by
  unfold Rothermel.compute_rate_of_spread Rothermel.phi_w
  rw [max_eq_right hw.le,
    show Rothermel.wind_along_angle_of_travel 0 U_dir loc_x loc_y new_loc_x new_loc_y = 0 from
      zero_mul _, max_self]

/-- C4 witness: travelling due east from (0,0,0) to (1,0,0) with wind bearing
270° gives a negative projected component, and the rate coincides with the
zero-wind rate. -/
theorem headwind_equals_zero_wind_witness :
    Rothermel.wind_along_angle_of_travel 1 270 0 0 1 0 < 0 ∧
    Rothermel.compute_rate_of_spread 0 0 0 1 0 0 1 1 0.2 100 8000 0.0555 0.01 32 0.1 1 270 =
      Rothermel.compute_rate_of_spread 0 0 0 1 0 0 1 1 0.2 100 8000 0.0555 0.01 32 0.1 0 270 := by
  have hatan : Rothermel.atan2 (0 - 0) (1 - 0) = 0 := by
    unfold Rothermel.atan2
    norm_num [Real.arctan_zero]
  have hw : Rothermel.wind_along_angle_of_travel 1 270 0 0 1 0 < 0 := by
    unfold Rothermel.wind_along_angle_of_travel Rothermel.wind_angle_radians
      Rothermel.radians Rothermel.angle_of_travel
    rw [hatan, show ((90 - 270 : ℝ) * Real.pi / 180 - 0) = -Real.pi from by ring,
      Real.cos_neg, Real.cos_pi]
    norm_num
  exact ⟨hw, headwind_equals_zero_wind 0 0 0 1 0 0 1 1 0.2 100 8000 0.0555 0.01 32 0.1 1 270 hw⟩

/-- The cubic damping polynomial `1 - 2.59 r + 5.11 r² - 3.52 r³` is
non-increasing on all of ℝ (its derivative has negative discriminant). -/
theorem cubic_damping_anti {r1 r2 : ℝ} (h : r1 ≤ r2) :
    1 - 2.59 * r2 + 5.11 * r2 ^ 2 - 3.52 * r2 ^ 3 ≤
      1 - 2.59 * r1 + 5.11 * r1 ^ 2 - 3.52 * r1 ^ 3 := by
  nlinarith [mul_nonneg (sub_nonneg.2 h) (sq_nonneg (r1 - r2)),
    mul_nonneg (sub_nonneg.2 h) (sq_nonneg (r1 + r2 - 511 / 528)), sub_nonneg.2 h]

/-- The cubic damping polynomial is nonnegative left of its root r = 1. -/
theorem cubic_damping_nonneg {r : ℝ} (h : r ≤ 1) :
    0 ≤ 1 - 2.59 * r + 5.11 * r ^ 2 - 3.52 * r ^ 3 := by
  nlinarith [cubic_damping_anti h]

/-- The moisture damping coefficient is nonnegative for every input, since the
moisture ratio is clamped to at most 1 and the cubic vanishes at 1. -/
theorem etaM_nonneg (M_f M_x : ℝ) : 0 ≤ Rothermel.eta_M M_f M_x :=
  cubic_damping_nonneg (min_le_right _ 1)

/-- The moisture damping coefficient is non-increasing in the moisture
fraction when the moisture of extinction is positive. -/
theorem etaM_anti {M_x : ℝ} (hMx : 0 < M_x) {Mf1 Mf2 : ℝ} (h : Mf1 ≤ Mf2) :
    Rothermel.eta_M Mf2 M_x ≤ Rothermel.eta_M Mf1 M_x :=
  cubic_damping_anti (min_le_min (div_le_div_of_nonneg_right h hMx.le) le_rfl)

/-- C2: with fuel, geometry and wind fixed (positive fuel load, bed depth,
surface-to-volume ratio, particle density and moisture of extinction,
nonnegative heat content and mineral content, total mineral content at most 1),
the rate returned by compute_rate_of_spread is monotonically non-increasing in
the moisture fraction on [0, M_x], and equals 0 whenever the moisture fraction
is at least the moisture of extinction. -/
theorem rate_of_spread_moisture (loc_x loc_y loc_z new_loc_x new_loc_y new_loc_z
    w_0 delta M_x sigma h S_T S_e p_p U U_dir : ℝ)
    (hw0 : 0 < w_0) (hdelta : 0 < delta) (hsigma : 0 < sigma) (hh : 0 ≤ h)
    (hST : S_T ≤ 1) (hSe : 0 ≤ S_e) (hpp : 0 < p_p) (hMx : 0 < M_x) :
    (∀ Mf1 Mf2 : ℝ, 0 ≤ Mf1 → Mf1 ≤ Mf2 → Mf2 ≤ M_x →
      Rothermel.compute_rate_of_spread loc_x loc_y loc_z new_loc_x new_loc_y new_loc_z
          w_0 delta M_x sigma h S_T S_e p_p Mf2 U U_dir ≤
        Rothermel.compute_rate_of_spread loc_x loc_y loc_z new_loc_x new_loc_y new_loc_z
          w_0 delta M_x sigma h S_T S_e p_p Mf1 U U_dir) ∧
    (∀ Mf : ℝ, M_x ≤ Mf →
      Rothermel.compute_rate_of_spread loc_x loc_y loc_z new_loc_x new_loc_y new_loc_z
        w_0 delta M_x sigma h S_T S_e p_p Mf U U_dir = 0) := by
  have hB : 0 ≤ Rothermel.B w_0 delta p_p := by
    unfold Rothermel.B Rothermel.p_b
    positivity
  have hBop : 0 ≤ Rothermel.B_op sigma := by
    unfold Rothermel.B_op
    positivity
  have hγ : 0 ≤ Rothermel.gamma_prime sigma w_0 delta p_p := by
    unfold Rothermel.gamma_prime Rothermel.gamma_prime_max
    have h1 : 0 ≤ Rothermel.B w_0 delta p_p / Rothermel.B_op sigma := div_nonneg hB hBop
    positivity
  have hwn : 0 ≤ Rothermel.w_n w_0 S_T := by
    unfold Rothermel.w_n
    nlinarith
  have hηS : 0 ≤ Rothermel.eta_S S_e := by
    unfold Rothermel.eta_S
    have h1 : (0 : ℝ) ≤ 0.174 * S_e ^ (-(0.19 : ℝ)) := by positivity
    exact le_min h1 zero_le_one
  have hξ : 0 ≤ Rothermel.xi sigma w_0 delta p_p := by
    unfold Rothermel.xi
    positivity
  have hφw : 0 ≤ Rothermel.phi_w sigma w_0 delta p_p U U_dir
      loc_x loc_y new_loc_x new_loc_y := by
    unfold Rothermel.phi_w
    have h1 : (0 : ℝ) ≤ max (Rothermel.wind_along_angle_of_travel U U_dir
        loc_x loc_y new_loc_x new_loc_y) 0 := le_max_right _ _
    have h2 : 0 ≤ Rothermel.B w_0 delta p_p / Rothermel.B_op sigma := div_nonneg hB hBop
    have hc : 0 ≤ Rothermel.c sigma := by
      unfold Rothermel.c
      positivity
    exact mul_nonneg (mul_nonneg hc (Real.rpow_nonneg h1 _)) (Real.rpow_nonneg h2 _)
  have hφs : 0 ≤ Rothermel.phi_s w_0 delta p_p loc_z new_loc_z := by
    unfold Rothermel.phi_s
    have h1 := Real.rpow_nonneg hB (-(0.3 : ℝ))
    positivity
  have hφ : 0 ≤ 1 + Rothermel.phi_w sigma w_0 delta p_p U U_dir
      loc_x loc_y new_loc_x new_loc_y + Rothermel.phi_s w_0 delta p_p loc_z new_loc_z := by
    linarith
  have hpb : 0 < Rothermel.p_b w_0 delta := by
    unfold Rothermel.p_b
    positivity
  have hε : 0 < Rothermel.epsilon sigma := Real.exp_pos _
  constructor
  · intro Mf1 Mf2 h1 h12 h2x
    have hanti : Rothermel.eta_M Mf2 M_x ≤ Rothermel.eta_M Mf1 M_x := etaM_anti hMx h12
    have hQ1 : 0 < Rothermel.Q_ig Mf1 := by
      unfold Rothermel.Q_ig
      linarith
    have hQ12 : Rothermel.Q_ig Mf1 ≤ Rothermel.Q_ig Mf2 := by
      unfold Rothermel.Q_ig
      linarith
    have hbase : 0 ≤ Rothermel.gamma_prime sigma w_0 delta p_p * Rothermel.w_n w_0 S_T * h :=
      mul_nonneg (mul_nonneg hγ hwn) hh
    unfold Rothermel.compute_rate_of_spread Rothermel.I_R
    refine max_le_max (div_le_div₀ ?_ ?_ ?_ ?_) le_rfl
    · exact mul_nonneg (mul_nonneg (mul_nonneg (mul_nonneg hbase
        (etaM_nonneg _ _)) hηS) hξ) hφ
    · refine mul_le_mul_of_nonneg_right (mul_le_mul_of_nonneg_right
        (mul_le_mul_of_nonneg_right ?_ hηS) hξ) hφ
      exact mul_le_mul_of_nonneg_left hanti hbase
    · exact mul_pos (mul_pos hpb hε) hQ1
    · exact mul_le_mul_of_nonneg_left hQ12 (mul_nonneg hpb.le hε.le)
  · intro Mf hMf
    have hr : Rothermel.r_M Mf M_x = 1 :=
      min_eq_right ((one_le_div hMx).2 hMf)
    have hη : Rothermel.eta_M Mf M_x = 0 := by
      unfold Rothermel.eta_M
      rw [hr]
      norm_num
    unfold Rothermel.compute_rate_of_spread Rothermel.I_R
    rw [hη]
    simp

/-- C2 witness: the moisture monotonicity theorem applied to a concrete
short-grass-like fuel (w_0 = 1, δ = 1, σ = 100, h = 8000, S_T = 0.0555,
S_e = 0.01, p_p = 32, M_x = 0.2). -/
theorem rate_of_spread_moisture_witness :
    (0 : ℝ) < 1 ∧ (0 : ℝ) < 100 ∧ (0 : ℝ) ≤ 8000 ∧ (0.0555 : ℝ) ≤ 1 ∧
    (0 : ℝ) ≤ 0.01 ∧ (0 : ℝ) < 32 ∧ (0 : ℝ) < 0.2 ∧
    ((∀ Mf1 Mf2 : ℝ, 0 ≤ Mf1 → Mf1 ≤ Mf2 → Mf2 ≤ 0.2 →
      Rothermel.compute_rate_of_spread 0 0 0 1 1 0
          1 1 0.2 100 8000 0.0555 0.01 32 Mf2 5 90 ≤
        Rothermel.compute_rate_of_spread 0 0 0 1 1 0
          1 1 0.2 100 8000 0.0555 0.01 32 Mf1 5 90) ∧
    (∀ Mf : ℝ, (0.2 : ℝ) ≤ Mf →
      Rothermel.compute_rate_of_spread 0 0 0 1 1 0
        1 1 0.2 100 8000 0.0555 0.01 32 Mf 5 90 = 0)) :=
  ⟨by norm_num, by norm_num, by norm_num, by norm_num, by norm_num, by norm_num, by norm_num,
    rate_of_spread_moisture 0 0 0 1 1 0 1 1 0.2 100 8000 0.0555 0.01 32 5 90
      (by norm_num) (by norm_num) (by norm_num) (by norm_num) (by norm_num) (by norm_num)
      (by norm_num) (by norm_num)⟩


/-- C7 counterexample: on the degenerate input w_0 = 0 (zero fuel load, so the
spec-modelled kernel reports DegenerateFuel) the source kernel does not fail:
rothermel.py has no validation or raise, so the call returns normally. -/
theorem degenerate_fuel_not_reported :
    Rothermel.compute_rate_of_spread_spec 0 0 0 1 1 0 0 1 0.2 100 8000 0.0555 0.01 32 0.1 0 0 =
      Except.error Rothermel.KernelError.DegenerateFuel ∧
    ¬ (∀ loc_x loc_y loc_z new_loc_x new_loc_y new_loc_z
        w_0 delta M_x sigma h S_T S_e p_p M_f U U_dir : ℝ,
        (w_0 ≤ 0 ∨ delta ≤ 0 ∨ sigma ≤ 0) →
        ∃ err, Rothermel.compute_rate_of_spread_call loc_x loc_y loc_z new_loc_x new_loc_y
          new_loc_z w_0 delta M_x sigma h S_T S_e p_p M_f U U_dir = Except.error err) := by
  constructor
  · unfold Rothermel.compute_rate_of_spread_spec
    rw [if_pos (Or.inl le_rfl)]
  · intro hclaim
    obtain ⟨err, herr⟩ := hclaim 0 0 0 1 1 0 0 1 0.2 100 8000 0.0555 0.01 32 0.1 0 0
      (Or.inl le_rfl)
    exact absurd herr (by simp [Rothermel.compute_rate_of_spread_call])

/-- C7 amended: the kernel performs no degenerate-fuel validation at all: every
call, including those with zero or negative fuel load, bed depth, or
surface-to-volume ratio, returns normally with the clamped rate, and no
DegenerateFuel error is ever reported. -/
theorem kernel_call_always_ok (loc_x loc_y loc_z new_loc_x new_loc_y new_loc_z
    w_0 delta M_x sigma h S_T S_e p_p M_f U U_dir : ℝ) :
    Rothermel.compute_rate_of_spread_call loc_x loc_y loc_z new_loc_x new_loc_y new_loc_z
        w_0 delta M_x sigma h S_T S_e p_p M_f U U_dir =
      Except.ok (Rothermel.compute_rate_of_spread loc_x loc_y loc_z new_loc_x new_loc_y
        new_loc_z w_0 delta M_x sigma h S_T S_e p_p M_f U U_dir) ∧
    ∀ err, Rothermel.compute_rate_of_spread_call loc_x loc_y loc_z new_loc_x new_loc_y
        new_loc_z w_0 delta M_x sigma h S_T S_e p_p M_f U U_dir ≠ Except.error err :=
  ⟨rfl, fun _ hcon => by simp [Rothermel.compute_rate_of_spread_call] at hcon⟩

/-- C9: auto() numbers BurnStatus consecutively from 1 (UNBURNED=1, BURNING=2,
BURNED=3, FIRELINE=4, SCRATCHLINE=5, WETLINE=6), get_actions therefore maps
'none'→1, 'fireline'→4, 'scratchline'→5, 'wetline'→6, and no burn status has
the value 0. -/
theorem burn_status_codes :
    BurnStatus.UNBURNED.val = 1 ∧ BurnStatus.BURNING.val = 2 ∧
    BurnStatus.BURNED.val = 3 ∧ BurnStatus.FIRELINE.val = 4 ∧
    BurnStatus.SCRATCHLINE.val = 5 ∧ BurnStatus.WETLINE.val = 6 ∧
    get_actions = [("none", 1), ("fireline", 4), ("scratchline", 5), ("wetline", 6)] ∧
    ∀ s : BurnStatus, s.val ≠ 0 := by
  refine ⟨rfl, rfl, rfl, rfl, rfl, rfl, rfl, ?_⟩
  intro s
  cases s <;> simp [BurnStatus.val]

/-- If the loop of RothermelSimulation.run produces a fire map, the trace of
fire-manager updates reaches QUIT after a (possibly empty) run of RUNNING
statuses, and the returned map is the one paired with that QUIT. -/
theorem run_loop_some (α : Type) :
    ∀ trace : List (α × GameStatus), ∀ m : α, run_loop trace = some m →
      ∃ pre post, trace = pre ++ (m, GameStatus.QUIT) :: post ∧
        ∀ p ∈ pre, p.2 = GameStatus.RUNNING := by
  intro trace
  induction trace with
  | nil =>
    intro m hm
    simp [run_loop] at hm
  | cons hd tl ih =>
    intro m hm
    obtain ⟨m0, s0⟩ := hd
    rw [run_loop] at hm
    by_cases hq : s0 = GameStatus.QUIT
    · rw [if_pos hq] at hm
      obtain rfl : m0 = m := Option.some.inj hm
      exact ⟨[], tl, by simp [hq], by simp⟩
    · rw [if_neg hq] at hm
      by_cases hr : s0 = GameStatus.RUNNING
      · rw [if_pos hr] at hm
        obtain ⟨pre, post, htr, hpre⟩ := ih m hm
        refine ⟨(m0, s0) :: pre, post, by simp [htr], ?_⟩
        intro p hp
        rcases List.mem_cons.1 hp with h | h
        · rw [h]
          exact hr
        · exact hpre p h
      · rw [if_neg hr] at hm
        exact Option.noConfusion hm

/-- If the first non-RUNNING status in the update trace is anything other than
QUIT, the loop of RothermelSimulation.run exits through the while condition and
the function returns None. -/
theorem run_loop_none (α : Type) :
    ∀ (pre : List (α × GameStatus)) (x : α × GameStatus) (post : List (α × GameStatus)),
      (∀ p ∈ pre, p.2 = GameStatus.RUNNING) →
      x.2 ≠ GameStatus.RUNNING → x.2 ≠ GameStatus.QUIT →
      run_loop (pre ++ x :: post) = none := by
  intro pre
  induction pre with
  | nil =>
    intro x post hpre hnr hnq
    obtain ⟨m0, s0⟩ := x
    simp only [List.nil_append]
    rw [run_loop, if_neg hnq, if_neg hnr]
  | cons hd tl ih =>
    intro x post hpre hnr hnq
    obtain ⟨m0, s0⟩ := hd
    have hs0 : s0 = GameStatus.RUNNING := hpre (m0, s0) (List.mem_cons_self _ _)
    simp only [List.cons_append]
    rw [run_loop, if_neg (by rw [hs0]; exact fun hcon => GameStatus.noConfusion hcon),
      if_pos hs0]
    exact ih x post (fun p hp => hpre p (List.mem_cons_of_mem _ hp)) hnr hnq

/-- C10: RothermelSimulation.run returns the fire map only on the path where
the fire status becomes QUIT inside the loop (after a run of RUNNING updates),
and when the loop instead exits because the status becomes any other
non-RUNNING value, the function returns None. -/
theorem run_returns_only_on_quit {α : Type} (trace : List (α × GameStatus)) :
    (∀ m : α, run_loop trace = some m →
      ∃ pre post, trace = pre ++ (m, GameStatus.QUIT) :: post ∧
        ∀ p ∈ pre, p.2 = GameStatus.RUNNING) ∧
    (∀ pre x post, trace = pre ++ x :: post →
      (∀ p ∈ pre, p.2 = GameStatus.RUNNING) →
      x.2 ≠ GameStatus.RUNNING → x.2 ≠ GameStatus.QUIT →
      run_loop trace = none) :=
  ⟨run_loop_some α trace, fun pre x post htr hpre hnr hnq =>
    htr ▸ run_loop_none α pre x post hpre hnr hnq⟩

/-- C10 witness: on the trace [(1, RUNNING), (2, QUIT)] the loop returns map 2
through the QUIT branch, and on [(1, RUNNING), (2, BURNED_OUT)] it returns
none. -/
theorem run_returns_only_on_quit_witness :
    (∃ pre post, [((1 : ℕ), GameStatus.RUNNING), (2, GameStatus.QUIT)] =
      pre ++ ((2 : ℕ), GameStatus.QUIT) :: post ∧
        ∀ p ∈ pre, p.2 = GameStatus.RUNNING) ∧
    run_loop [((1 : ℕ), GameStatus.RUNNING), (2, GameStatus.BURNED_OUT)] = none :=
  ⟨(run_returns_only_on_quit [((1 : ℕ), GameStatus.RUNNING), (2, GameStatus.QUIT)]).1 2
      (by decide),
   (run_returns_only_on_quit _).2 [((1 : ℕ), GameStatus.RUNNING)] (2, GameStatus.BURNED_OUT)
      [] rfl (by decide) (by decide) (by decide)⟩

/-- C8: the noise field generator is deterministic: two invocations whose
inputs (seed, scale, octaves, persistence, lacunarity, value range, shape)
coincide produce identical fields at every pixel. -/
theorem noise_field_deterministic
    (seed1 scale1 octaves1 lacunarity1 seed2 scale2 octaves2 lacunarity2 : ℕ)
    (persistence1 vmin1 vmax1 persistence2 vmin2 vmax2 : ℝ) (s01 s11 s02 s12 : ℕ)
    (hseed : seed1 = seed2) (hscale : scale1 = scale2) (hoct : octaves1 = octaves2)
    (hlac : lacunarity1 = lacunarity2) (hper : persistence1 = persistence2)
    (hmin : vmin1 = vmin2) (hmax : vmax1 = vmax2) (hs0 : s01 = s02) (hs1 : s11 = s12) :
    ∀ x y : ℕ,
      Perlin.noise_field seed1 scale1 octaves1 lacunarity1 persistence1 vmin1 vmax1
        s01 s11 x y =
      Perlin.noise_field seed2 scale2 octaves2 lacunarity2 persistence2 vmin2 vmax2
        s02 s12 x y := by
  subst hseed hscale hoct hlac hper hmin hmax hs0 hs1
  intro x y
  rfl

/-- C8 witness: the determinism theorem applied to the concrete parameter tuple
(seed 42, scale 2, 3 octaves, persistence 0.5, lacunarity 2, range [0, 10],
shape 8 × 8). -/
theorem noise_field_deterministic_witness :
    Perlin.noise_field 42 2 3 2 0.5 0 10 8 8 3 4 =
      Perlin.noise_field 42 2 3 2 0.5 0 10 8 8 3 4 :=
  noise_field_deterministic 42 2 3 2 42 2 3 2 0.5 0 10 0.5 0 10 8 8 8 8
    rfl rfl rfl rfl rfl rfl rfl rfl rfl 3 4
